import Mathlib

/-!
Shallow embedding of the `as3` Python module (src/as3.py), a lifecycle
manager for the F5 AS3 extension package.

Modelling conventions:
- The instance fields `self.bigip` (truthiness = a session exists) and
  `self.error` are the state `AS3State`.
- HTTP and filesystem effects are oracles in `Device` / `Catalog`:
  each field records the (parsed) outcome the corresponding remote call
  would produce.  `Option` = a call that returned Python-falsy `False`.
- Python truthiness of optional keyword arguments is modelled explicitly:
  a missing keyword is `none`, a supplied empty string / zero integer is
  falsy exactly as in Python (`truthyStr`, `RelArg.truthy`).
- `retrieveVersion` recurses when no release id is given; the embedding
  takes a fuel argument counting entries into the function, and returns
  `none` when the fuel runs out (modelling Python RecursionError /
  divergence).  Any fuel >= 2 suffices whenever the code terminates.
- Paths in the code that raise a runtime TypeError (calling the string
  `self.error`, membership test on the boolean `True`) are modelled with
  `PyResult.exn`.
- The error messages set by `github` inside `versionToId` and
  `retrieveVersion` are not observed by any theorem below; the message
  built by `installAS3` on resolution failure therefore embeds the
  pre-call error value as the nested `str(self.error)` placeholder.
-/

/-- The mutable instance state of the `as3` object: `connected` models the
truthiness of `self.bigip`, `error` models `self.error`. -/
structure AS3State where
  connected : Bool
  error : String
deriving DecidableEq, Repr

/-- A GitHub release asset: `{id, name}` (src/as3.py line 360-371). -/
structure Asset where
  id : Nat
  name : String
deriving DecidableEq, Repr

/-- A GitHub release object: `{id, name, body, assets}`. -/
structure Release where
  id : Nat
  name : String
  body : String
  assets : List Asset
deriving DecidableEq, Repr

/-- One local file written by `retrieveVersion` (open(...).write). -/
structure FileWrite where
  name : String
  content : String
deriving DecidableEq, Repr

/-- The value returned by the Python `retrieveVersion`: a filename string,
the boolean `False`, or the implicit `None` when the asset loop falls
through without finding a matching asset. -/
inductive RVResult where
  | file (name : String)
  | fail
  | noneR
deriving DecidableEq, Repr

/-- Parsed outcomes of the GitHub calls made through `self.github`:
`none` models the call returning `False` (exception or non-200). -/
structure Catalog where
  latest : Option Nat
  releases : Option (List Release)
  releaseById : String → Option Release
  assetById : Nat → Option (List String)

/-- The value bound to the `release` keyword of `retrieveVersion`: absent
(default `False`), the integer id taken from the latest-pointer JSON, or
the string id produced by `versionToId`. -/
inductive RelArg where
  | noneA
  | intA (n : Nat)
  | strA (s : String)
deriving DecidableEq, Repr

/-- Python truthiness of the `release` keyword (`if not release:`). -/
def RelArg.truthy : RelArg → Bool
  | .noneA => false
  | .intA n => n != 0
  | .strA s => s != ""

/-- The URI suffix `str(release)` used to fetch `releases/<id>`. -/
def RelArg.key : RelArg → String
  | .noneA => ""
  | .intA n => toString n
  | .strA s => s

/-- Python truthiness of an optional string keyword argument
(`version`, `filename`): absent or empty string is falsy. -/
def truthyStr : Option String → Bool
  | none => false
  | some s => s != ""

/-- A JSON object with string values, as returned by the device info
endpoint `/mgmt/shared/appsvcs/info`. -/
abbrev Dict := List (String × String)

/-- Python `'k' in d`. -/
def dictHas (d : Dict) (k : String) : Bool :=
  d.any (fun kv => kv.1 == k)

/-- Python `d['k']` (defaulting to `""`; every use below is guarded by
`dictHas`). -/
def dictGet (d : Dict) (k : String) : String :=
  match d.find? (fun kv => kv.1 == k) with
  | some kv => kv.2
  | none => ""

/-- The value returned by the Python `isInstalled` once a session exists:
`False`, the bare boolean `True`, or the raw info mapping. -/
inductive InstalledResult where
  | notInstalled
  | installedNoInfo
  | info (d : Dict)
deriving DecidableEq, Repr

/-- `as3.isInstalled` (src/as3.py lines 282-308), given an established
session.  `resp` is the (parsed) result of
`self.bigip.get('/mgmt/shared/appsvcs/info')`; `none` models a falsy
response, and a non-empty mapping is truthy.  The version-mismatch check
runs only when the `version` keyword is truthy AND the response has a
`version` key. -/
def isInstalledCore (version : Option String) (resp : Option Dict) : InstalledResult :=
  match resp with
  | none => .notInstalled
  | some d =>
    if d.isEmpty then .notInstalled
    else if truthyStr version && dictHas d ("version")
            && (dictGet d ("version") != version.getD "") then .notInstalled
    else if dictHas d ("version") then .info d
    else .installedNoInfo

/-- The inner loop of `versionToId` (src/as3.py lines 317-323): first
release whose `name` is string-equal to the requested version, returning
`str(release['id'])`. -/
def versionLoop (version : String) : List Release → Option String
  | [] => none
  | r :: rest =>
    if r.name == version then some (toString r.id) else versionLoop version rest

/-- `as3.versionToId` (src/as3.py lines 310-323): fetches the release
list (`none` = the `github` call returned falsy) and scans it. -/
def versionToId (cat : Catalog) (version : String) : Option String :=
  match cat.releases with
  | none => none
  | some rs => versionLoop version rs

/-- Python `str.endswith(x)`, written structurally on the character lists
so that witnesses can evaluate it. -/
def strEndsWith (s x : String) : Bool :=
  s.data.reverse.take x.data.length == x.data.reverse

/-- The asset loop of `retrieveVersion` (src/as3.py lines 360-371): scan
the assets in order; on the first one whose name ends with `rpm`,
download it (`none` = download failed, return `False`), write it and
return its name; if the loop completes, the Python function returns the
implicit `None`.  `ws` accumulates files already written. -/
def assetLoop (cat : Catalog) (ws : List FileWrite) : List Asset → RVResult × List FileWrite
  | [] => (.noneR, ws)
  | a :: rest =>
    if strEndsWith a.name ("rpm") then
      match cat.assetById a.id with
      | none => (.fail, ws)
      | some chunks =>
        (.file a.name, ws ++ [{ name := a.name, content := String.join chunks }])
    else assetLoop cat ws rest

/-- The given-id branch of `retrieveVersion` (src/as3.py lines 345-371):
fetch `releases/<key>`; on success write the release notes to
`release-notes-<name>.txt` and run the asset loop. -/
def retrieveGiven (cat : Catalog) (key : String) : RVResult × List FileWrite :=
  match cat.releaseById key with
  | none => (.fail, [])
  | some rel =>
    assetLoop cat
      [{ name := "release-notes-" ++ rel.name ++ ".txt", content := rel.body }]
      rel.assets

/-- `as3.retrieveVersion` (src/as3.py lines 325-371).  When the `release`
keyword is falsy (absent, `False`, `0` or `""`), fetch the latest
pointer and re-enter with its integer id.  The fuel counts entries into
the function; `none` models nontermination (for a falsy latest id the
code re-enters forever and Python raises RecursionError). -/
def retrieveVersion (cat : Catalog) : Nat → RelArg → Option (RVResult × List FileWrite)
  | 0, _ => none
  | fuel + 1, release =>
    if release.truthy = false then
      match cat.latest with
      | none => some (.fail, [])
      | some latestId => retrieveVersion cat fuel (.intA latestId)
    else
      some (retrieveGiven cat release.key)

/-- Oracles for the device-side effects of one manager call
(src/as3.py: `self.bigip.command`, `os.path.exists`, `self.bigip.upload`,
`self.bigip.create` with its recorded status `self.bigip.code`, and the
two `self.bigip.get('/mgmt/shared/appsvcs/info')` reads an operation can
make) together with the catalog oracles. -/
structure Device where
  host : String
  connectOk : Bool
  connectError : String
  commandOk : Bool
  cat : Catalog
  fs : List String
  uploadOk : Bool
  uploadError : String
  createCode : Nat
  createError : String
  createResp : Bool
  infoResp : Option Dict
  infoResp2 : Option Dict

/-- `if not self.bigip: if not self.bigipConnect(...): return False`
(src/as3.py lines 177-181 and the analogous blocks in uninstall /
isInstalled).  On connection failure `bigipConnect` stores its message. -/
def ensureSession (env : Device) (st : AS3State) : Bool × AS3State :=
  if st.connected then (true, st)
  else if env.connectOk then (true, { st with connected := true })
  else (false, { st with error := env.connectError })

/-- Outcome of the artifact-resolution block of `installAS3`
(src/as3.py lines 187-207): a local filename to upload, an early
`return False` with the state at that point, or divergence inside
`retrieveVersion`. -/
inductive ResolveOut where
  | diverge
  | failwith (st : AS3State)
  | okFile (f : String) (st : AS3State)
deriving DecidableEq, Repr

/-- The artifact-resolution block of `installAS3` (src/as3.py lines
187-207): explicit `filename` wins; else a truthy `version` is resolved
through `versionToId` then `retrieveVersion(release=vid)`; else
`retrieveVersion()` fetches the latest.  A falsy resolved filename
(`False`, `None` or `""`) takes the corresponding failure branch. -/
def resolveArtifact (env : Device) (fuel : Nat) (st : AS3State)
    (version filename : Option String) : ResolveOut :=
  if truthyStr filename then .okFile (filename.getD "") st
  else if truthyStr version then
    let v := version.getD ""
    match versionToId env.cat v with
    | none =>
      .failwith { st with error :=
        "Cannot retrieve ID for version " ++ v ++ " error: " ++ st.error }
    | some vid =>
      match retrieveVersion env.cat fuel (.strA vid) with
      | none => .diverge
      | some r =>
        match r.1 with
        | .file f =>
          if f == "" then
            .failwith { st with error :=
              "Cannot retrieve version " ++ v ++ " error: " ++ st.error }
          else .okFile f st
        | _ =>
          .failwith { st with error :=
            "Cannot retrieve version " ++ v ++ " error: " ++ st.error }
  else
    match retrieveVersion env.cat fuel .noneA with
    | none => .diverge
    | some r =>
      match r.1 with
      | .file f =>
        if f == "" then
          .failwith { st with error :=
            "Cannot retrieve latest version, error: " ++ st.error }
        else .okFile f st
      | _ =>
        .failwith { st with error :=
          "Cannot retrieve latest version, error: " ++ st.error }

/-- The upload step of `installAS3` (src/as3.py lines 213-217): on upload
failure the error message is recorded but execution continues. -/
def uploadStep (env : Device) (f : String) (st : AS3State) : AS3State :=
  if env.uploadOk then st
  else { st with error :=
    "Upload of file " ++ f ++ " to host " ++ env.host ++ " failed. " ++ env.uploadError }

/-- The observable outcome of one `installAS3` call: the returned boolean,
the final instance state, and whether the upload / task-creation device
calls were made. -/
structure InstallTrace where
  result : Bool
  st : AS3State
  uploadCalled : Bool
  taskSubmitted : Bool
deriving DecidableEq, Repr

/-- `as3.installAS3` (src/as3.py lines 166-242): ensure a session, touch
the iApps enable file, resolve the artifact, check it exists on disk
(note: this failure `return False` stores no message), upload
(non-fatal on error), submit the INSTALL task (fail unless
`self.bigip.code == 202`), then wait and verify via `isInstalled` with
no version argument.  `none` models divergence inside resolution. -/
def installAS3 (env : Device) (fuel : Nat) (version filename : Option String)
    (st : AS3State) : Option InstallTrace :=
  match ensureSession env st with
  | (false, st1) =>
    some { result := false, st := st1, uploadCalled := false, taskSubmitted := false }
  | (true, st1) =>
    if env.commandOk = false then
      some { result := false,
             st := { st1 with error := "Cannot perform touch on /var/config/rest/iapps/enable" },
             uploadCalled := false, taskSubmitted := false }
    else
      match resolveArtifact env fuel st1 version filename with
      | .diverge => none
      | .failwith st2 =>
        some { result := false, st := st2, uploadCalled := false, taskSubmitted := false }
      | .okFile f st2 =>
        if env.fs.contains f = false then
          some { result := false, st := st2, uploadCalled := false, taskSubmitted := false }
        else
          if env.createCode ≠ 202 then
            some { result := false,
                   st := { uploadStep env f st2 with error :=
                     "request to perform install task for " ++ f ++ " failed: " ++ env.createError },
                   uploadCalled := true, taskSubmitted := true }
          else if isInstalledCore none env.infoResp = .notInstalled then
            some { result := false,
                   st := { uploadStep env f st2 with error :=
                     "Package " ++ f ++ " not installed successfully" },
                   uploadCalled := true, taskSubmitted := true }
          else
            some { result := true, st := uploadStep env f st2,
                   uploadCalled := true, taskSubmitted := true }

/-- A Python call result that may be a raised exception. -/
inductive PyResult (α : Type) where
  | ok (a : α)
  | exn (msg : String)
deriving DecidableEq, Repr

/-- The observable outcome of one `uninstallAS3` call. -/
structure UninstallTrace where
  result : PyResult Bool
  st : AS3State
  taskSubmitted : Bool
deriving DecidableEq, Repr

/-- `as3.uninstallAS3` (src/as3.py lines 243-280): ensure a session,
query `isInstalled` (no version argument); a falsy result fails with a
message; the bare boolean `True` makes `'version' in currentVersion`
raise TypeError; a mapping missing `version` or `release` fails; else
submit the UNINSTALL task, fail if `create` returned falsy, wait, and
re-query: not-installed means success, while the still-installed branch
calls the string `self.error`, raising TypeError (line 279). -/
def uninstallAS3 (env : Device) (st : AS3State) : UninstallTrace :=
  match ensureSession env st with
  | (false, st1) => { result := .ok false, st := st1, taskSubmitted := false }
  | (true, st1) =>
    match isInstalledCore none env.infoResp with
    | .notInstalled =>
      { result := .ok false,
        st := { st1 with error := "Error retrieving the current version from " ++ env.host },
        taskSubmitted := false }
    | .installedNoInfo =>
      { result := .exn ("TypeError: argument of type bool is not iterable"),
        st := st1, taskSubmitted := false }
    | .info d =>
      if (dictHas d ("version") && dictHas d ("release")) = false then
        { result := .ok false,
          st := { st1 with error := "Cannot find version or release in current version" },
          taskSubmitted := false }
      else
        let packageName :=
          "f5-appsvcs-" ++ dictGet d ("version") ++ "-" ++ dictGet d ("release") ++ ".noarch"
        if env.createResp = false then
          { result := .ok false,
            st := { st1 with error := "Error uninstalling package " ++ packageName },
            taskSubmitted := true }
        else if isInstalledCore none env.infoResp2 = .notInstalled then
          { result := .ok true, st := st1, taskSubmitted := true }
        else
          { result := .exn ("TypeError: str object is not callable"),
            st := st1, taskSubmitted := true }

/-! ## Concrete oracle instances used by witnesses and counterexamples -/

/-- A catalog on which every fetch fails. -/
def emptyCat : Catalog :=
  { latest := none, releases := none
  , releaseById := fun _ => none, assetById := fun _ => none }

/-- A baseline device on which every call succeeds and no local file exists. -/
def baseDev : Device :=
  { host := "h", connectOk := true, connectError := "ce", commandOk := true
  , cat := emptyCat, fs := [], uploadOk := true, uploadError := "ue"
  , createCode := 202, createError := "te", createResp := true
  , infoResp := none, infoResp2 := none }

/-- Device for the task-submission run: the file exists, the task endpoint
answers 500. -/
def envC2 : Device := { baseDev with fs := [("a.rpm")], createCode := 500 }

/-- The trace of `installAS3 envC2 1 none (some "a.rpm")` from a connected,
error-free state. -/
def trC2 : InstallTrace :=
  { result := false
  , st := { connected := true, error := "request to perform install task for a.rpm failed: te" }
  , uploadCalled := true, taskSubmitted := true }

/-- Device for the fail-fast run: identical to the baseline (empty disk). -/
def envC3 : Device := baseDev

/-- Device for the non-fatal-upload run: file on disk, upload reports an
error, task accepted (202), device afterwards reports the package. -/
def envC4 : Device :=
  { baseDev with
    fs := [("a.rpm")],
    uploadOk := false,
    infoResp := some [("version", "3.16.0")] }

/-- The trace of `installAS3 envC4 1 none (some "a.rpm")` from a connected,
error-free state. -/
def trC4 : InstallTrace :=
  { result := true
  , st := { connected := true, error := "Upload of file a.rpm to host h failed. ue" }
  , uploadCalled := true, taskSubmitted := true }

/-- Device whose info endpoint reports a version but no release field. -/
def envC5 : Device := { baseDev with infoResp := some [("version", "3.16.0")] }

/-- Device whose info endpoint reports a truthy mapping with no version
field, so `isInstalled` returns the bare boolean `True`. -/
def envC5x : Device := { baseDev with infoResp := some [("foo", "bar")] }

/-- A release whose only asset is not an rpm. -/
def relC6x : Release :=
  { id := 5, name := "v1", body := "b", assets := [{ id := 1, name := "notes.txt" }] }

/-- Catalog serving `relC6x` under id "5". -/
def catC6x : Catalog :=
  { emptyCat with releaseById := fun k => if k == "5" then some relC6x else none }

/-- A release with a non-rpm asset before the rpm asset (the asset-selection
example of the spec). -/
def relC6 : Release :=
  { id := 7, name := "v1.0", body := "notes"
  , assets := [{ id := 1, name := "notes.txt" }, { id := 2, name := "pkg-1.0.rpm" }] }

/-- Catalog serving `relC6` under id "7" with downloadable asset 2. -/
def catC6 : Catalog :=
  { emptyCat with
    releaseById := fun k => if k == "7" then some relC6 else none,
    assetById := fun i => if i == 2 then some [("DA"), ("TA")] else none }

/-- A release published under the falsy id 0. -/
def relC7z : Release :=
  { id := 0, name := "v0", body := "b", assets := [{ id := 1, name := "p.rpm" }] }

/-- Catalog whose latest pointer carries the falsy id 0. -/
def catC7 : Catalog :=
  { emptyCat with
    latest := some 0,
    releaseById := fun k => if k == "0" then some relC7z else none,
    assetById := fun i => if i == 1 then some [("x")] else none }

/-- A release under the truthy id 7. -/
def relC7 : Release :=
  { id := 7, name := "v7", body := "b7", assets := [{ id := 3, name := "p7.rpm" }] }

/-- Catalog whose latest pointer is the truthy id 7. -/
def catC7w : Catalog :=
  { emptyCat with
    latest := some 7,
    releaseById := fun k => if k == "7" then some relC7 else none,
    assetById := fun i => if i == 3 then some [("Z")] else none }

/-- Catalog whose release list holds "v3.16.0" before "v3.16": exact
matching must skip the first when "v3.16" is requested. -/
def catC8 : Catalog :=
  { emptyCat with releases := some ([ { id := 11, name := "v3.16.0", body := "", assets := [] }, { id := 12, name := "v3.16", body := "", assets := [] } ]) }

/-! ## Helper lemmas -/

/-- The scan of `versionToId` is the first release whose name equals the
requested version. -/
theorem versionLoop_eq_find (version : String) :
    ∀ rs : List Release,
    versionLoop version rs =
      (rs.find? (fun r => r.name == version)).map (fun r => toString r.id) := by
  intro rs
  induction rs with
  | nil => rfl
  | cons r rest ih =>
    unfold versionLoop
    rw [List.find?_cons]
    cases h : r.name == version with
    | true => simp
    | false => simpa using ih

/-- The asset loop of `retrieveVersion` acts on the first asset whose name
ends with `rpm` and ignores every other asset. -/
theorem assetLoop_eq_find (cat : Catalog) :
    ∀ (xs : List Asset) (ws : List FileWrite),
    assetLoop cat ws xs =
      match xs.find? (fun a => strEndsWith a.name ("rpm")) with
      | none => (.noneR, ws)
      | some a =>
        match cat.assetById a.id with
        | none => (.fail, ws)
        | some chunks =>
          (.file a.name, ws ++ [{ name := a.name, content := String.join chunks }]) := by
  intro xs
  induction xs with
  | nil => intro ws; rfl
  | cons a rest ih =>
    intro ws
    unfold assetLoop
    rw [List.find?_cons]
    cases h : strEndsWith a.name ("rpm") with
    | true => simp
    | false => simpa using ih ws

/-! ## Claim theorems -/

/-- C8: For every version string and every release list returned by the
catalog, `versionToId` returns the id of the first release whose name is
exactly string-equal to the requested version, and returns false when no
release name matches or the release-list fetch fails. -/
theorem versionToId_exact_match :
    ∀ (cat : Catalog) (version : String),
    (cat.releases = none → versionToId cat version = none) ∧
    (∀ rs, cat.releases = some rs →
      versionToId cat version =
        (rs.find? (fun r => r.name == version)).map (fun r => toString r.id)) := by
  intro cat version
  constructor
  · intro h
    unfold versionToId
    rw [h]
  · intro rs h
    unfold versionToId
    rw [h]
    exact versionLoop_eq_find version rs

/-- Witness for C8: on a catalog listing "v3.16.0" before "v3.16",
requesting "v3.16" returns the id of the second release — an exact match,
not a name-starts-with match. -/
theorem versionToId_exact_match_witness :
    versionToId catC8 ("v3.16") = some ("12") := by
  have h := (versionToId_exact_match catC8 ("v3.16")).2 _ rfl
  rw [h]
  rfl

/-- C9 counterexample: the claim quantifies over every requested version,
but for the requested version `""` (a falsy Python string) the mismatch
check is skipped: against a device reporting version "3.15.0" the call
returns the full mapping instead of false, although "" differs from
"3.15.0". -/
theorem isInstalledCore_empty_version_cex :
    ("" : String) ≠ "3.15.0" ∧
    isInstalledCore (some ("")) (some [("version", "3.15.0")]) =
      .info [("version", "3.15.0")] ∧
    isInstalledCore (some ("")) (some [("version", "3.15.0")]) ≠ .notInstalled := by
  refine ⟨by decide, by rfl, by decide⟩

/-- C9 (amended): for every device info response containing a `version`
field and every non-empty requested version v, `isInstalled(version=v)`
returns false when the reported version differs from v and the full
mapping when they are equal; with no requested version it returns the
full mapping whenever a `version` field is present.  (The empty string is
falsy in Python, so an empty requested version skips the check.) -/
theorem isInstalledCore_version_check :
    ∀ (d : Dict) (v : String), dictHas d ("version") = true → v ≠ "" →
    ((dictGet d ("version") ≠ v → isInstalledCore (some v) (some d) = .notInstalled) ∧
     (dictGet d ("version") = v → isInstalledCore (some v) (some d) = .info d) ∧
     isInstalledCore none (some d) = .info d) := by
  intro d v hhas hv
  have hne : d.isEmpty = false := by
    cases d with
    | nil => simp [dictHas] at hhas
    | cons kv rest => rfl
  refine ⟨?_, ?_, ?_⟩
  · intro hneq
    unfold isInstalledCore
    simp [hne, hhas, truthyStr, bne_iff_ne, hv, hneq]
  · intro heqv
    unfold isInstalledCore
    simp [hne, hhas, truthyStr, bne_iff_ne, hv, heqv]
  · unfold isInstalledCore
    simp [hne, hhas, truthyStr]

/-- Witness for C9: a device reporting version "3.15.0" is not installed
at requested version "3.16.0", and is reported with the full mapping at
requested version "3.15.0". -/
theorem isInstalledCore_version_check_witness :
    isInstalledCore (some ("3.16.0")) (some [("version", "3.15.0")]) = .notInstalled ∧
    isInstalledCore (some ("3.15.0")) (some [("version", "3.15.0")]) =
      .info [("version", "3.15.0")] := by
  constructor
  · exact (isInstalledCore_version_check [("version", "3.15.0")] ("3.16.0")
      (by decide) (by decide)).1 (by decide)
  · exact (isInstalledCore_version_check [("version", "3.15.0")] ("3.15.0")
      (by decide) (by decide)).2.1 (by decide)

/-- C10: for every truthy device info response with no `version` field,
`isInstalled` returns the bare boolean true even when an expected version
was supplied: the mismatch check is skipped entirely. -/
theorem isInstalledCore_no_version_field :
    ∀ (d : Dict) (vArg : Option String), d ≠ [] → dictHas d ("version") = false →
    isInstalledCore vArg (some d) = .installedNoInfo := by
  intro d vArg hne hhas
  have hne2 : d.isEmpty = false := by
    cases d with
    | nil => exact absurd rfl hne
    | cons kv rest => rfl
  unfold isInstalledCore
  simp [hne2, hhas]

/-- Witness for C10: a truthy mapping without a version field yields the
bare true sentinel although version "3.16.0" was requested. -/
theorem isInstalledCore_no_version_field_witness :
    isInstalledCore (some ("3.16.0")) (some [("foo", "bar")]) = .installedNoInfo :=
  isInstalledCore_no_version_field [("foo", "bar")] (some ("3.16.0"))
    (by decide) (by decide)

/-- C6 counterexample: for a release whose assets contain no name ending
in the package extension, `retrieveVersion` falls off the asset loop and
returns Python's `None` — neither a local filename nor the boolean false —
refuting "its result is always a local filename or false".  (The notes
file is still written.) -/
theorem retrieveGiven_no_rpm_cex :
    (retrieveGiven catC6x ("5")).1 = .noneR ∧
    ¬ ((retrieveGiven catC6x ("5")).1 = .fail ∨
       ∃ f, (retrieveGiven catC6x ("5")).1 = .file f) := by
  have h0 : (retrieveGiven catC6x ("5")).1 = .noneR := by rfl
  refine ⟨h0, ?_⟩
  rintro (h | ⟨f, h⟩)
  · rw [h0] at h
    exact RVResult.noConfusion h
  · rw [h0] at h
    exact RVResult.noConfusion h

/-- C6 (amended): for every release object with a given id,
`retrieveVersion(releaseId)` writes the notes body to
`release-notes-{releaseName}.txt`, scans the asset list in order,
selects the first asset whose name ends with the package extension while
ignoring all others, downloads it to a local file named exactly as the
asset and returns that filename; it returns false on any fetch failure;
and when no asset name ends with the extension it returns Python None
(falsy, but not the boolean false) after writing only the notes file. -/
theorem retrieveGiven_spec :
    ∀ (cat : Catalog) (key : String),
    (cat.releaseById key = none → retrieveGiven cat key = (.fail, [])) ∧
    (∀ rel, cat.releaseById key = some rel →
      retrieveGiven cat key =
        match rel.assets.find? (fun a => strEndsWith a.name ("rpm")) with
        | none =>
          (.noneR, [{ name := "release-notes-" ++ rel.name ++ ".txt", content := rel.body }])
        | some a =>
          match cat.assetById a.id with
          | none =>
            (.fail, [{ name := "release-notes-" ++ rel.name ++ ".txt", content := rel.body }])
          | some chunks =>
            (.file a.name,
             [{ name := "release-notes-" ++ rel.name ++ ".txt", content := rel.body },
              { name := a.name, content := String.join chunks }])) := by
  intro cat key
  constructor
  · intro h
    unfold retrieveGiven
    rw [h]
  · intro rel h
    simp only [retrieveGiven, h]
    rw [assetLoop_eq_find]
    cases hf : rel.assets.find? (fun a => strEndsWith a.name ("rpm")) with
    | none => rfl
    | some a =>
      cases hb : cat.assetById a.id with
      | none => rfl
      | some chunks => simp

/-- Witness for C6: on the spec's asset-selection example
(assets notes.txt then pkg-1.0.rpm) the first rpm-named asset is chosen,
the notes and package files are written, and the package filename is
returned. -/
theorem retrieveGiven_spec_witness :
    retrieveGiven catC6 ("7") =
      (.file ("pkg-1.0.rpm"),
       [{ name := "release-notes-v1.0.txt", content := "notes" },
        { name := "pkg-1.0.rpm", content := "DATA" }]) := by
  have h := (retrieveGiven_spec catC6 ("7")).2 relC6 (by rfl)
  rw [h]
  decide

/-- C7 counterexample: when the latest-pointer fetch succeeds with the id
0 (a falsy Python integer), the no-argument call re-enters the
no-argument branch forever (it returns no result for any amount of fuel
shown here), although fetching release "0" by id directly succeeds — so
the recursion is not "taken exactly once and never deeper" for every
catalog state in which the latest-pointer fetch succeeds. -/
theorem retrieveVersion_zero_latest_cex :
    catC7.latest = some 0 ∧
    retrieveVersion catC7 100 .noneA = none ∧
    (retrieveGiven catC7 ("0")).1 = .file ("p.rpm") ∧
    retrieveVersion catC7 2 .noneA ≠ some (retrieveGiven catC7 ("0")) := by
  refine ⟨rfl, by decide, by decide, by decide⟩

/-- C7 (amended): for every catalog state in which the latest-pointer
fetch succeeds with a truthy (non-zero) id, `retrieveVersion()` with no
release argument equals `retrieveVersion(release=latestId)` and both
equal the by-id run on latestId after exactly one recursive step (any
fuel allowing at least two entries gives the same final result).  For a
latest id of 0 the falsy-argument branch repeats instead. -/
theorem retrieveVersion_latest_recursion :
    ∀ (cat : Catalog) (latestId k : Nat),
    cat.latest = some latestId → latestId ≠ 0 →
    (retrieveVersion cat (k + 2) .noneA = some (retrieveGiven cat (toString latestId)) ∧
     retrieveVersion cat (k + 2) .noneA = retrieveVersion cat (k + 1) (.intA latestId)) := by
  intro cat latestId k h h0
  have step : retrieveVersion cat (k + 2) .noneA
      = retrieveVersion cat (k + 1) (.intA latestId) := by
    conv_lhs => rw [retrieveVersion]
    simp [RelArg.truthy, h]
  have run : retrieveVersion cat (k + 1) (.intA latestId)
      = some (retrieveGiven cat (toString latestId)) := by
    have ht : (RelArg.intA latestId).truthy = true := by
      simp [RelArg.truthy, bne_iff_ne, h0]
    conv_lhs => rw [retrieveVersion]
    rw [ht]
    simp [RelArg.key]
  exact ⟨step.trans run, step⟩

/-- Witness for C7: on a catalog whose latest pointer is the truthy id 7,
the no-argument call downloads release 7's rpm asset and writes its
notes, exactly as the call with release id 7 does. -/
theorem retrieveVersion_latest_recursion_witness :
    retrieveVersion catC7w 2 .noneA = some (retrieveGiven catC7w (toString 7)) ∧
    retrieveVersion catC7w 2 .noneA = retrieveVersion catC7w 1 (.intA 7) ∧
    retrieveVersion catC7w 2 .noneA =
      some (.file ("p7.rpm"),
            [{ name := "release-notes-v7.txt", content := "b7" },
             { name := "p7.rpm", content := "Z" }]) := by
  have h := retrieveVersion_latest_recursion catC7w 7 0 rfl (by decide)
  exact ⟨h.1, h.2, h.1.trans (by decide)⟩

/-- Shared helper: once connected and past the touch command, a resolved
filename that is not on the local disk makes `installAS3` return false
immediately — no upload call, no task submission, and (notably) the
error field is left exactly as resolution left it. -/
theorem install_missing_file_general :
    ∀ (env : Device) (fuel : Nat) (version filename : Option String) (st : AS3State)
      (f : String) (st1 : AS3State),
    st.connected = true → env.commandOk = true →
    resolveArtifact env fuel st version filename = .okFile f st1 →
    env.fs.contains f = false →
    installAS3 env fuel version filename st =
      some { result := false, st := st1, uploadCalled := false, taskSubmitted := false } := by
  intro env fuel version filename st f st1 hc hcmd hres hfs
  have hes : ensureSession env st = (true, st) := by
    simp [ensureSession, hc]
  have hmem : ¬ f ∈ env.fs := by simpa using hfs
  simp [installAS3, hes, hcmd, hres, hmem]

/-- C3: for every invocation of install in which the resolved artifact
filename does not exist on the local disk, install returns false without
attempting the upload to the device — no upload call is made and no task
is submitted. -/
theorem installAS3_missing_file_fails_fast :
    ∀ (env : Device) (fuel : Nat) (version filename : Option String) (st : AS3State)
      (f : String) (st1 : AS3State),
    st.connected = true → env.commandOk = true →
    resolveArtifact env fuel st version filename = .okFile f st1 →
    env.fs.contains f = false →
    installAS3 env fuel version filename st =
      some { result := false, st := st1, uploadCalled := false, taskSubmitted := false } :=
  install_missing_file_general

/-- Witness for C3: with the file a.rpm named explicitly but absent from
the disk, install fails with no upload and no task. -/
theorem installAS3_missing_file_fails_fast_witness :
    installAS3 envC3 1 none (some ("a.rpm")) { connected := true, error := "" } =
      some { result := false, st := { connected := true, error := "" },
             uploadCalled := false, taskSubmitted := false } :=
  installAS3_missing_file_fails_fast envC3 1 none (some ("a.rpm"))
    { connected := true, error := "" } ("a.rpm") { connected := true, error := "" }
    rfl rfl (by decide) (by decide)

/-- C2: after the INSTALL TaskRequest is submitted, install fails unless
the status code recorded on the session is exactly 202: for any other
code it returns false with a task-submission error, and for 202 the
outcome is exactly that of the wait-and-verify step. -/
theorem installAS3_requires_202 :
    ∀ (env : Device) (fuel : Nat) (version filename : Option String) (st : AS3State)
      (tr : InstallTrace),
    installAS3 env fuel version filename st = some tr →
    tr.taskSubmitted = true →
    ((env.createCode ≠ 202 → tr.result = false ∧
        ∃ f, tr.st.error =
          "request to perform install task for " ++ f ++ " failed: " ++ env.createError) ∧
     (env.createCode = 202 →
        (tr.result = true ↔ isInstalledCore none env.infoResp ≠ .notInstalled))) := by
  intro env fuel version filename st tr h htask
  unfold installAS3 at h
  split at h
  · injection h with h
    subst h
    simp at htask
  · split at h
    · injection h with h
      subst h
      simp at htask
    · split at h
      · exact Option.noConfusion h
      · injection h with h
        subst h
        simp at htask
      · rename_i f st2 heq
        split at h
        · injection h with h
          subst h
          simp at htask
        · split at h
          · rename_i hcc
            injection h with h
            subst h
            refine ⟨fun _ => ⟨rfl, ⟨f, rfl⟩⟩, fun h202 => absurd h202 hcc⟩
          · rename_i hcc
            split at h
            · rename_i hinst
              injection h with h
              subst h
              refine ⟨fun hne => absurd hne hcc, fun _ => by simp [hinst]⟩
            · rename_i hinst
              injection h with h
              subst h
              refine ⟨fun hne => absurd hne hcc, fun _ => by simpa using hinst⟩

/-- Witness for C2: with the task endpoint answering 500, install fails
with the task-submission message even though everything before the task
step succeeded. -/
theorem installAS3_requires_202_witness :
    trC2.result = false ∧
    trC2.st.error = "request to perform install task for a.rpm failed: te" := by
  have h := installAS3_requires_202 envC2 1 none (some ("a.rpm"))
    { connected := true, error := "" } trC2 (by decide) (by decide)
  exact ⟨(h.1 (by decide)).1, by decide⟩

/-- C4: when the resolved file exists but the upload reports an error,
install records the error message and still submits the INSTALL task;
the final result is exactly determined by the task status code and the
verification step, so an upload error alone never causes false. -/
theorem installAS3_upload_error_nonfatal :
    ∀ (env : Device) (fuel : Nat) (version filename : Option String) (st : AS3State)
      (f : String) (st1 : AS3State),
    st.connected = true → env.commandOk = true →
    resolveArtifact env fuel st version filename = .okFile f st1 →
    env.fs.contains f = true →
    env.uploadOk = false →
    ∃ tr, installAS3 env fuel version filename st = some tr ∧
      tr.uploadCalled = true ∧ tr.taskSubmitted = true ∧
      tr.result = (decide (env.createCode = 202) &&
                   !(decide (isInstalledCore none env.infoResp = .notInstalled))) ∧
      (tr.result = true →
        tr.st.error = "Upload of file " ++ f ++ " to host " ++ env.host
          ++ " failed. " ++ env.uploadError) := by
  intro env fuel version filename st f st1 hc hcmd hres hfs hup
  have hes : ensureSession env st = (true, st) := by
    simp [ensureSession, hc]
  have hmem : f ∈ env.fs := by simpa using hfs
  have hupst : uploadStep env f st1 =
      { st1 with error := "Upload of file " ++ f ++ " to host " ++ env.host
        ++ " failed. " ++ env.uploadError } := by
    simp [uploadStep, hup]
  by_cases hcc : env.createCode = 202
  · by_cases hinst : isInstalledCore none env.infoResp = .notInstalled
    · refine ⟨{ result := false,
                st := { uploadStep env f st1 with error :=
                  "Package " ++ f ++ " not installed successfully" },
                uploadCalled := true, taskSubmitted := true },
        by simp [installAS3, hes, hcmd, hres, hmem, hcc, hinst],
        rfl, rfl, by simp [hcc, hinst], ?_⟩
      intro hh
      simp at hh
    · refine ⟨{ result := true, st := uploadStep env f st1,
                uploadCalled := true, taskSubmitted := true },
        by simp [installAS3, hes, hcmd, hres, hmem, hcc, hinst],
        rfl, rfl, by simp [hcc, hinst], ?_⟩
      intro _
      rw [hupst]
  · refine ⟨{ result := false,
              st := { uploadStep env f st1 with error :=
                "request to perform install task for " ++ f ++ " failed: " ++ env.createError },
              uploadCalled := true, taskSubmitted := true },
      by simp [installAS3, hes, hcmd, hres, hmem, hcc],
      rfl, rfl, by simp [hcc], ?_⟩
    intro hh
    simp at hh

/-- Witness for C4: on a run with the upload failing and everything else
succeeding, install returns true and the recorded error is the upload
message — the upload error did not abort the sequence. -/
theorem installAS3_upload_error_nonfatal_witness :
    trC4.result = true ∧
    trC4.st.error = "Upload of file a.rpm to host h failed. ue" ∧
    trC4.taskSubmitted = true := by
  obtain ⟨tr, h1, _h2, _h3, _h4, h5⟩ :=
    installAS3_upload_error_nonfatal envC4 1 none (some ("a.rpm"))
      { connected := true, error := "" } ("a.rpm") { connected := true, error := "" }
      rfl rfl (by decide) (by decide) rfl
  have h6 : some tr = some trC4 := h1.symm.trans (by decide)
  injection h6 with h6
  subst h6
  exact ⟨rfl, h5 rfl, rfl⟩

/-- C5 counterexample: when the installed-state query returns the bare
boolean true sentinel (a truthy info mapping with no version field),
uninstall does not return false with a not-installed message — the
Python membership test `'version' in True` raises a TypeError instead
(no task is submitted, but the claimed false return never happens). -/
theorem uninstallAS3_true_sentinel_cex :
    isInstalledCore none envC5x.infoResp = .installedNoInfo ∧
    (uninstallAS3 envC5x { connected := true, error := "" }).result ≠ .ok false ∧
    (uninstallAS3 envC5x { connected := true, error := "" }).result =
      .exn ("TypeError: argument of type bool is not iterable") ∧
    (uninstallAS3 envC5x { connected := true, error := "" }).taskSubmitted = false := by
  refine ⟨by decide, by decide, by decide, by decide⟩

/-- C5 (amended): uninstall fails with a not-installed error and submits
no UNINSTALL task when the installed-state query result is absent, and
likewise when it is a mapping missing the `version` or `release` field;
but when the query returns the bare boolean true sentinel, the
membership test raises a TypeError instead of returning false (still
with no task submitted). -/
theorem uninstallAS3_not_installed_guard :
    ∀ (env : Device) (st : AS3State), st.connected = true →
    ((isInstalledCore none env.infoResp = .notInstalled →
      uninstallAS3 env st =
        { result := .ok false,
          st := { st with error := "Error retrieving the current version from " ++ env.host },
          taskSubmitted := false }) ∧
     (∀ d, isInstalledCore none env.infoResp = .info d →
      (dictHas d ("version") && dictHas d ("release")) = false →
      uninstallAS3 env st =
        { result := .ok false,
          st := { st with error := "Cannot find version or release in current version" },
          taskSubmitted := false }) ∧
     (isInstalledCore none env.infoResp = .installedNoInfo →
      uninstallAS3 env st =
        { result := .exn ("TypeError: argument of type bool is not iterable"),
          st := st, taskSubmitted := false })) := by
  intro env st hc
  have hes : ensureSession env st = (true, st) := by
    simp [ensureSession, hc]
  refine ⟨?_, ?_, ?_⟩
  · intro hinst
    simp [uninstallAS3, hes, hinst]
  · intro d hinst hmiss
    simp [uninstallAS3, hes, hinst, hmiss]
  · intro hinst
    simp [uninstallAS3, hes, hinst]

/-- Witness for C5 (amended): a device reporting a version but no release
field makes uninstall fail with the missing-field message and no task. -/
theorem uninstallAS3_not_installed_guard_witness :
    uninstallAS3 envC5 { connected := true, error := "" } =
      { result := .ok false,
        st := { connected := true,
                error := "Cannot find version or release in current version" },
        taskSubmitted := false } :=
  (uninstallAS3_not_installed_guard envC5 { connected := true, error := "" } rfl).2.1
    [("version", "3.16.0")] (by decide) (by decide)
